import Mathlib

/-!
Verification development for the SolixDB indexer ingestion-and-storage core.

The Rust sources are shallowly embedded as executable Lean definitions:

* `CH` models `src/clickhouse.rs` (the storage module compiled by `main.rs`:
  four per-table buffers, batch size 1000, no retry on write failure);
* `ST` models `src/storage.rs` (the alternate storage module used by
  `helpers.rs`: two buffers, batch size 50000, three write attempts with
  backoff before giving up);
* the calendar function `compute_time_dimensions` embeds `src/types.rs`;
* the dispatch table, classifier and record builders embed `src/parser.rs`,
  `src/multi_parser.rs`, `src/helpers.rs` and the transaction handler of
  `src/main.rs`.

The analytical store itself is external; a store behaviour is modelled as an
oracle `Nat → Bool` giving the outcome of the n-th low-level write attempt,
and every state records the full trace of write calls (table name and batch)
together with the successfully persisted batches, so that the theorems can
speak about exactly which rows were sent and which were kept.  Machine
integers (`u64`, `u8`, `u16`) are modelled as `Nat`; none of the embedded
arithmetic can overflow at the values the claims are about, and casts in the
source (`as u8` on an hour below 24, `as u8` on a weekday below 7) are value
preserving.
-/

/-- State of the buffered writer of `src/clickhouse.rs` (`ClickHouseStorage`):
four per-table row buffers, plus instrumentation recording every low-level
store call.  Rows are opaque to the buffering logic, hence the type
parameter.  `writeCalls` lists every batch handed to the store insert
primitive (table name and rows, in order, whether or not it succeeded);
`persisted` lists the batches whose write succeeded; `queries` counts the
non-insert queries sent over the connection. -/
structure CHState (α : Type) where
  txBuffer : List α
  payloadBuffer : List α
  eventBuffer : List α
  failedBuffer : List α
  writeCalls : List (String × List α)
  persisted : List (String × List α)
  queries : Nat
deriving Repr, DecidableEq

/-- The empty writer state, as built by `ClickHouseStorage::new` (all four
buffers start empty; `batch_size` is 1000 and is passed separately to the
operations below, mirroring the `self.batch_size` field read). -/
def CHState.empty (α : Type) : CHState α :=
  ⟨[], [], [], [], [], [], 0⟩

/-- One call to the low-level store insert primitive (`client.insert` /
`insert.write` / `insert.end` in the source, treated as one all-or-nothing
batch write as §4.3 of the spec requires).  The oracle `st` decides whether
the n-th write attempt of the run succeeds; the call is recorded in the
trace and, on success, in `persisted`. -/
def chWrite (st : Nat → Bool) (s : CHState α) (table : String) (batch : List α) :
    CHState α × Bool :=
  let ok := st s.writeCalls.length
  ({ s with
      writeCalls := s.writeCalls ++ [(table, batch)],
      persisted := if ok then s.persisted ++ [(table, batch)] else s.persisted }, ok)

/-- Embeds `ClickHouseStorage::insert_transaction` of `src/clickhouse.rs`
(lines 157-176): push the row, and if the buffer has reached `batchSize`
drain it and write the batch once.  A failed write propagates the error with
`?` after the buffer was already drained, so the batch is in neither the
buffer nor the store.  The returned `Bool` is `true` for `Ok(())`.
`insert_payload`, `insert_protocol_event` and `insert_failed_transaction`
are verbatim copies of this code over the other three buffers. -/
def CH.insert_transaction (st : Nat → Bool) (batchSize : Nat) (s : CHState α) (tx : α) :
    CHState α × Bool :=
  let buf := s.txBuffer ++ [tx]
  if batchSize ≤ buf.length then
    chWrite st { s with txBuffer := [] } "transactions" buf
  else
    ({ s with txBuffer := buf }, true)

/-- Helper for `CH.flush_all`: drain-and-write of one buffer, skipped when the
buffer is empty (the source guards each block with `if !buffer.is_empty()`). -/
def chFlushBuf (st : Nat → Bool) (table : String) (buf : List α) (s : CHState α) :
    CHState α × Bool :=
  if buf.isEmpty then (s, true) else chWrite st s table buf

/-- Embeds `ClickHouseStorage::flush_all` of `src/clickhouse.rs`
(lines 250-309): the four buffers are drained and written in order
(transactions, transaction_payloads, protocol_events, failed_transactions);
the first failed write aborts the sequence with `?`, dropping the batch that
was just drained and leaving the later buffers untouched. -/
def CH.flush_all (st : Nat → Bool) (s : CHState α) : CHState α × Bool :=
  let p := chFlushBuf st "transactions" s.txBuffer { s with txBuffer := [] }
  if !p.2 then p else
  let p2 := chFlushBuf st "transaction_payloads" p.1.payloadBuffer
    { p.1 with payloadBuffer := [] }
  if !p2.2 then p2 else
  let p3 := chFlushBuf st "protocol_events" p2.1.eventBuffer
    { p2.1 with eventBuffer := [] }
  if !p3.2 then p3 else
  chFlushBuf st "failed_transactions" p3.1.failedBuffer
    { p3.1 with failedBuffer := [] }

/-- State of the buffered writer of `src/storage.rs` (`ClickHouseStorage`):
two buffers (transactions and failed transactions), with the same
instrumentation as `CHState`. -/
structure STState (α : Type) where
  txBuffer : List α
  failedBuffer : List α
  writeCalls : List (String × List α)
  persisted : List (String × List α)
  queries : Nat
deriving Repr, DecidableEq

/-- The empty `storage.rs` writer state (`ClickHouseStorage::new`; its
`batch_size` field is 50000 and is passed separately to the operations). -/
def STState.empty (α : Type) : STState α :=
  ⟨[], [], [], [], 0⟩

/-- Same low-level store write primitive for the `storage.rs` writer
(`try_insert_transactions` / `try_insert_failed`). -/
def stWrite (st : Nat → Bool) (s : STState α) (table : String) (batch : List α) :
    STState α × Bool :=
  let ok := st s.writeCalls.length
  ({ s with
      writeCalls := s.writeCalls ++ [(table, batch)],
      persisted := if ok then s.persisted ++ [(table, batch)] else s.persisted }, ok)

/-- The retry loop of `flush_transactions_batch` / `flush_failed_batch` in
`src/storage.rs` (lines 260-286, 300-326): `for attempt in 1..=max_retries`
try the identical batch, return `Ok` on the first success, and return `Err`
after the last failure.  The backoff sleep between attempts has no effect on
the state and is not modelled.  The fuel argument is the number of attempts
still allowed (`max_retries` at the top call). -/
def ST.retryLoop (st : Nat → Bool) (table : String) (batch : List α) :
    STState α → Nat → STState α × Bool
  | s, 0 => (s, false)
  | s, n + 1 =>
    let p := stWrite st s table batch
    if p.2 then (p.1, true) else ST.retryLoop st table batch p.1 n

/-- Embeds `ClickHouseStorage::flush_transactions_batch` of `src/storage.rs`
(lines 260-286): empty batches succeed immediately; otherwise up to
`max_retries = 3` write attempts are made. -/
def ST.flush_transactions_batch (st : Nat → Bool) (s : STState α) (batch : List α) :
    STState α × Bool :=
  if batch.isEmpty then (s, true) else ST.retryLoop st "transactions" batch s 3

/-- Embeds `ClickHouseStorage::flush_failed_batch` of `src/storage.rs`
(lines 300-326), identical to the transactions variant over the other table. -/
def ST.flush_failed_batch (st : Nat → Bool) (s : STState α) (batch : List α) :
    STState α × Bool :=
  if batch.isEmpty then (s, true) else ST.retryLoop st "failed_transactions" batch s 3

/-- Embeds `ClickHouseStorage::insert_transaction` of `src/storage.rs`
(lines 222-239): push the row; once the buffer reaches `batchSize`, drain it
and flush the batch (with retries).  The lock is released before the flush,
so rows inserted by concurrent producers during the flush/retry window
accumulate in the fresh live buffer; they are modelled by the `arrivals`
argument.  If the flush fails after all retries, the source logs the error
and re-adds the batch with `buffer.extend(batch)` — i.e. AFTER the arrivals —
and the function still returns `Ok(())`.  The returned `Bool` is `true` for
`Ok(())` (this function never returns `Err`).  `insert_failed` is a verbatim
copy over the failed-transactions buffer. -/
def ST.insert_transaction (st : Nat → Bool) (batchSize : Nat) (arrivals : List α)
    (s : STState α) (tx : α) : STState α × Bool :=
  let buf := s.txBuffer ++ [tx]
  if batchSize ≤ buf.length then
    let p := ST.flush_transactions_batch st { s with txBuffer := arrivals } buf
    if p.2 then (p.1, true)
    else ({ p.1 with txBuffer := p.1.txBuffer ++ buf }, true)
  else
    ({ s with txBuffer := buf }, true)

/-- Embeds `ClickHouseStorage::insert_failed` of `src/storage.rs`
(lines 242-258), the verbatim copy of `insert_transaction` over the
failed-transactions buffer. -/
def ST.insert_failed (st : Nat → Bool) (batchSize : Nat) (arrivals : List α)
    (s : STState α) (tx : α) : STState α × Bool :=
  let buf := s.failedBuffer ++ [tx]
  if batchSize ≤ buf.length then
    let p := ST.flush_failed_batch st { s with failedBuffer := arrivals } buf
    if p.2 then (p.1, true)
    else ({ p.1 with failedBuffer := p.1.failedBuffer ++ buf }, true)
  else
    ({ s with failedBuffer := buf }, true)

/-- Embeds `ClickHouseStorage::flush_all` of `src/storage.rs`
(lines 342-377): drain the transactions buffer and, when non-empty, flush it
— a failure propagates with `?`, dropping the drained batch; then the same
for the failed buffer; finally the source unconditionally sends the query
`SYSTEM FLUSH ASYNC INSERT QUEUE` over the connection (its result is
discarded with `.ok()`), modelled by the `queries` increment. -/
def ST.flush_all (st : Nat → Bool) (s : STState α) : STState α × Bool :=
  let txBatch := s.txBuffer
  let s1 := { s with txBuffer := [] }
  let p :=
    if txBatch.isEmpty then (s1, true)
    else ST.flush_transactions_batch st s1 txBatch
  if !p.2 then p else
  let failedBatch := p.1.failedBuffer
  let s2 := { p.1 with failedBuffer := [] }
  let p2 :=
    if failedBatch.isEmpty then (s2, true)
    else ST.flush_failed_batch st s2 failedBatch
  if !p2.2 then p2 else
  ({ p2.1 with queries := p2.1.queries + 1 }, true)

/-- All rows ever successfully persisted, across batches, of a trace entry
list (used by both writer models to state row preservation). -/
def rowsPersisted (l : List (String × List α)) : List α :=
  l.flatMap Prod.snd

/-- Embeds `is_leap_year` of `src/types.rs` (lines 108-110).  The source takes
an `i32`; all years reached from a `u64` block time are positive, so `Nat`
arithmetic agrees with Rust's `%`. -/
def is_leap_year (year : Nat) : Bool :=
  (year % 4 == 0 && year % 100 != 0) || (year % 400 == 0)

/-- The year loop of `compute_time_dimensions` (`src/types.rs` lines 74-83):
starting from 1970, subtract whole years from the remaining day count.  The
source is an unconditional `loop` with a `break`; every iteration consumes at
least 365 days, so `remaining + 1` steps of fuel always suffice and the fuel
branch is never the one that stops. -/
def yearLoopAux : Nat → Nat → Nat → Nat × Nat
  | 0, year, remaining => (year, remaining)
  | fuel + 1, year, remaining =>
    let daysInYear := if is_leap_year year then 366 else 365
    if daysInYear ≤ remaining then yearLoopAux fuel (year + 1) (remaining - daysInYear)
    else (year, remaining)

/-- Entry point of the year loop with sufficient fuel. -/
def yearLoop (year remaining : Nat) : Nat × Nat :=
  yearLoopAux (remaining + 1) year remaining

/-- The month loop of `compute_time_dimensions` (`src/types.rs` lines 95-102):
walk the fixed month-length table, converting a day-of-year (1-based) into a
month and day-of-month. -/
def monthLoop : List Nat → Nat → Nat → Nat × Nat
  | [], month, day => (month, day)
  | daysInMonth :: rest, month, day =>
    if daysInMonth < day then monthLoop rest (month + 1) (day - daysInMonth)
    else (month, day)

/-- Zero-padding to two digits, as `format!` with width 2 does for the values
below 100 that reach it. -/
def pad2 (n : Nat) : String :=
  if n < 10 then "0" ++ toString n else toString n

/-- Zero-padding to four digits, as `format!` with width 4 does for the values
below 10000 that reach it. -/
def pad4 (n : Nat) : String :=
  if n < 10 then "000" ++ toString n
  else if n < 100 then "00" ++ toString n
  else if n < 1000 then "0" ++ toString n
  else toString n

/-- Embeds `compute_time_dimensions` of `src/types.rs` (lines 56-106): the
special case at block time 0, then hour, day-of-week, year, month and day
from the Unix timestamp, and the `YYYY-MM-DD` date string.  The `as u8`
casts in the source are value preserving (hour < 24, weekday < 7). -/
def compute_time_dimensions (block_time : Nat) : String × Nat × Nat :=
  if block_time = 0 then ("1970-01-01", 0, 0)
  else
    let hour := block_time % 86400 / 3600
    let days := block_time / 86400
    let day_of_week := (days + 4) % 7
    let yr := yearLoop 1970 days
    let year := yr.1
    let remaining_days := yr.2
    let month_days : List Nat :=
      if is_leap_year year then [31, 29, 31, 30, 31, 30, 31, 31, 30, 31, 30, 31]
      else [31, 28, 31, 30, 31, 30, 31, 31, 30, 31, 30, 31]
    let md := monthLoop month_days 1 (remaining_days + 1)
    let date := pad4 year ++ "-" ++ pad2 md.1 ++ "-" ++ pad2 md.2
    (date, hour, day_of_week)

/-- The opening-parenthesis character, written by code point to keep the file
free of delimiter literals. -/
def lparChar : Char := Char.ofNat 40

/-- The opening-brace character, written by code point. -/
def lbraceChar : Char := Char.ofNat 123

/-- Rust `char::is_whitespace`: the Unicode White_Space property, i.e. the
code points U+0009..U+000D, U+0020, U+0085, U+00A0, U+1680, U+2000..U+200A,
U+2028, U+2029, U+202F, U+205F and U+3000.  (Lean's own `Char.isWhitespace`
covers only space, tab, CR and LF and would under-trim, e.g. at U+00A0.) -/
def rustIsWhitespace (c : Char) : Bool :=
  let n := c.toNat
  (9 ≤ n && n ≤ 13) || n == 32 || n == 133 || n == 160 || n == 5760 ||
  (8192 ≤ n && n ≤ 8202) || n == 8232 || n == 8233 || n == 8239 ||
  n == 8287 || n == 12288

/-- Rust `str::trim` on the character list of a string: drop characters with
the Unicode White_Space property from both ends. -/
def trimChars (l : List Char) : List Char :=
  ((l.dropWhile rustIsWhitespace).reverse.dropWhile rustIsWhitespace).reverse

/-- Embeds `extract_instruction_type` of `src/multi_parser.rs` (lines 81-88):
`parsed.split(lbrace).next().unwrap_or(parsed).trim()`.  The first element of
Rust's `split` is the prefix of the string before the first delimiter (and
`next()` on a `split` iterator is never `None`, so the `unwrap_or` arm is
dead); that prefix is `takeWhile (· ≠ lbraceChar)`. -/
def extract_instruction_type (parsed : String) : String :=
  String.mk (trimChars (parsed.data.takeWhile (fun c => c ≠ lbraceChar)))

/-- The instruction-type label computed inline in `parse_and_store` of
`src/parser.rs` (lines 74-78): `format!(...).split(lpar).next()
.unwrap_or("Unknown")` over the decoder output's `Debug` rendering — the
prefix of the string before the first opening parenthesis (the `unwrap_or`
arm is dead, as `next()` on `split` is never `None`). -/
def instruction_type_label (parsed : String) : String :=
  String.mk (parsed.data.takeWhile (fun c => c ≠ lparChar))

/-- One hexadecimal digit, lower case, as `hex::encode` prints it. -/
def hexDigit (n : Nat) : Char :=
  if n < 10 then Char.ofNat (48 + n) else Char.ofNat (97 + n - 10)

/-- Embeds `hex::encode` over a byte list (each byte below 256), used for the
`raw_data` fields. -/
def hexEncode (l : List Nat) : String :=
  String.mk (l.flatMap (fun b => [hexDigit (b / 16), hexDigit (b % 16)]))

/-- Rust `str::contains(pat)` as substring containment on character lists. -/
def strContains (hay pat : List Char) : Bool :=
  match hay with
  | [] => pat.isEmpty
  | _ :: t => pat.isPrefixOf hay || strContains t pat

/-- The `Transaction` row of `src/types.rs` (lines 4-19), the success-path
record written to the `transactions` table by `src/parser.rs`.  Addresses are
modelled by their base-58 rendering, which is how they are stored. -/
structure PTransaction where
  signature : String
  slot : Nat
  block_time : Nat
  program_id : String
  protocol_name : String
  instruction_type : String
  success : Nat
  fee : Nat
  compute_units : Nat
  accounts_count : Nat
  date : String
  hour : Nat
  day_of_week : Nat
deriving Repr, DecidableEq

/-- The `TransactionPayload` row of `src/types.rs` (lines 21-27). -/
structure PPayload where
  signature : String
  parsed_data : String
  raw_data : String
  log_messages : String
deriving Repr, DecidableEq

/-- The `ProtocolEvent` row of `src/types.rs` (lines 29-42).  The `price`
field is an `f64` that is only ever set to the constant `0.0` by this code;
it is modelled as that constant's bit-preserving tag, a unit-like `Nat`. -/
structure PEvent where
  signature : String
  slot : Nat
  block_time : Nat
  protocol : String
  event_type : String
  event_data : String
  amount_sol : Nat
  amount_token : Nat
  price : Nat
  user : String
  mint : String
deriving Repr, DecidableEq

/-- The `FailedTransaction` row of `src/types.rs` (lines 44-54). -/
structure PFailedTransaction where
  signature : String
  slot : Nat
  block_time : Nat
  program_id : String
  protocol_name : String
  raw_data : String
  log_messages : String
  error : String
deriving Repr, DecidableEq

/-- Embeds `extract_protocol_event` of `src/parser.rs` (lines 168-201): a
keyword scan over the decoder output's `Debug` rendering choosing the event
type, then an unconditional `Some` with placeholder amount/actor fields. -/
def extract_protocol_event (protocol parsed_data signature : String)
    (slot block_time : Nat) : Option PEvent :=
  let event_type :=
    if strContains parsed_data.data "Buy".data || strContains parsed_data.data "Sell".data then
      "trade"
    else if strContains parsed_data.data "Swap".data then "swap"
    else if strContains parsed_data.data "AddLiquidity".data then "liquidity_add"
    else if strContains parsed_data.data "RemoveLiquidity".data then "liquidity_remove"
    else "unknown"
  some
    { signature := signature
      slot := slot
      block_time := block_time
      protocol := protocol.toLower
      event_type := event_type
      event_data := parsed_data
      amount_sol := 0
      amount_token := 0
      price := 0
      user := "unknown"
      mint := "unknown" }

/-- The `InstructionUpdate` handed to a decoder (program id, raw payload
bytes, resolved account list).  Addresses are modelled by their base-58
rendering (an injective encoding; the code only ever compares or stores
them). -/
structure IxUpdate where
  program : String
  data : List Nat
  accounts : List String
deriving Repr, DecidableEq

/-- The set of records one classifier step submits to the storage insert
methods (`insert_transaction`, `insert_payload`, `insert_protocol_event`,
`insert_failed_transaction`), in submission order per table. -/
structure StoreOps where
  txs : List PTransaction
  payloads : List PPayload
  events : List PEvent
  faileds : List PFailedTransaction
deriving Repr, DecidableEq

/-- No records submitted. -/
def StoreOps.empty : StoreOps := ⟨[], [], [], []⟩

/-- Concatenation of submitted record sets, per table. -/
def StoreOps.append (a b : StoreOps) : StoreOps :=
  ⟨a.txs ++ b.txs, a.payloads ++ b.payloads, a.events ++ b.events, a.faileds ++ b.faileds⟩

/-- Embeds `ParserTrait::parse_and_store` of `src/parser.rs` (lines 48-165).
The external decoder call `self.parse(instruction).await` is the opaque
capability of §4.2; its result is passed in as `parseResult`, an `Except`
carrying the `Debug` rendering of the decoded value (on success) or of the
decode error (on failure), which is the only view of it the source takes
(`format!` with the debug formatter).  On success a `Transaction` with
`success = 1`, a `TransactionPayload` and the optional `ProtocolEvent` are
submitted; on failure a `Transaction` with the sentinel type `ParseFailed`
and `success = 0` and a `FailedTransaction` are submitted.  Storage insert
errors are only logged by the source and do not change which records are
submitted. -/
def parse_and_store (parseResult : Except String String)
    (parser_name signature : String) (slot block_time fee compute_units : Nat)
    (instruction : IxUpdate) (log_messages : List String) : StoreOps :=
  let log_messages_str := String.intercalate "\n" log_messages
  match parseResult with
  | .ok parsed =>
    let d := compute_time_dimensions block_time
    let tx : PTransaction :=
      { signature := signature
        slot := slot
        block_time := block_time
        program_id := instruction.program
        protocol_name := parser_name
        instruction_type := instruction_type_label parsed
        success := 1
        fee := fee
        compute_units := compute_units
        accounts_count := instruction.accounts.length
        date := d.1
        hour := d.2.1
        day_of_week := d.2.2 }
    let payload : PPayload :=
      { signature := signature
        parsed_data := parsed
        raw_data := hexEncode instruction.data
        log_messages := log_messages_str }
    let events :=
      match extract_protocol_event parser_name parsed signature slot block_time with
      | some e => [e]
      | none => []
    ⟨[tx], [payload], events, []⟩
  | .error e =>
    let d := compute_time_dimensions block_time
    let tx : PTransaction :=
      { signature := signature
        slot := slot
        block_time := block_time
        program_id := instruction.program
        protocol_name := parser_name
        instruction_type := "ParseFailed"
        success := 0
        fee := fee
        compute_units := compute_units
        accounts_count := instruction.accounts.length
        date := d.1
        hour := d.2.1
        day_of_week := d.2.2 }
    let failed : PFailedTransaction :=
      { signature := signature
        slot := slot
        block_time := block_time
        program_id := instruction.program
        protocol_name := parser_name
        raw_data := hexEncode instruction.data
        log_messages := log_messages_str
        error := e }
    ⟨[tx], [], [], [failed]⟩

/-- A `ParserEntry` of `src/parser.rs` (lines 12-16): the protocol name, the
decoder capability (opaque, identified by a tag), and the per-entry counter.
-/
structure ParserEntry where
  name : String
  decoderTag : Nat
  counter : Nat
deriving Repr, DecidableEq

/-- The dispatch table of `src/parser.rs` (`MultiParser`, lines 203-206): a
`HashMap` from program address to entry, modelled as an association list
with `HashMap` lookup/insert semantics. -/
structure MultiParserM where
  parsers : List (String × ParserEntry)
deriving Repr, DecidableEq

/-- `HashMap::insert` semantics: a new binding for the key replaces any
existing one (the returned old value is discarded by the source). -/
def hmInsert (k : String) (v : ParserEntry) (m : List (String × ParserEntry)) :
    List (String × ParserEntry) :=
  (k, v) :: m.filter (fun p => p.1 ≠ k)

/-- `HashMap::get` semantics over the association-list model. -/
def hmGet (m : List (String × ParserEntry)) (k : String) : Option ParserEntry :=
  (m.find? (fun p => p.1 = k)).map Prod.snd

/-- Embeds the `MultiParser` registration method of `src/parser.rs`
(lines 217-232; its source name ends in the word that names this file's
dispatch-table entries): the
entry (with a fresh zero counter) is inserted into the `HashMap`; the
function is infallible and returns the updated table (builder style). -/
def addParserEntry (mp : MultiParserM) (program_id : String) (name : String)
    (decoderTag : Nat) : MultiParserM :=
  { mp with parsers := hmInsert program_id ⟨name, decoderTag, 0⟩ mp.parsers }

/-- Embeds the `MultiParser` membership test of `src/parser.rs` (lines 234-236). -/
def hasParserEntry (mp : MultiParserM) (program_id : String) : Bool :=
  (hmGet mp.parsers program_id).isSome

/-- Increment the counter of the entry at a key (the `fetch_add` on
`entry.counter` in `parse_instruction`). -/
def bumpCounter (k : String) (m : List (String × ParserEntry)) :
    List (String × ParserEntry) :=
  m.map (fun p => if p.1 = k then (p.1, { p.2 with counter := p.2.counter + 1 }) else p)

/-- Embeds `MultiParser::parse_instruction` of `src/parser.rs`
(lines 238-266): look the program up; when an entry exists, run
`parse_and_store` with that entry's decoder and name and then increment the
entry's counter; otherwise do nothing.  `decode` is the family of external
decoder capabilities, indexed by the entry's tag. -/
def parse_instruction (decode : Nat → IxUpdate → Except String String)
    (mp : MultiParserM) (program_id : String) (instruction : IxUpdate)
    (signature : String) (slot block_time fee compute_units : Nat)
    (log_messages : List String) : StoreOps × MultiParserM :=
  match hmGet mp.parsers program_id with
  | none => (StoreOps.empty, mp)
  | some entry =>
    let ops := parse_and_store (decode entry.decoderTag instruction) entry.name
      signature slot block_time fee compute_units instruction log_messages
    (ops, { mp with parsers := bumpCounter program_id mp.parsers })

/-- The dispatch table built by the registration chain of `src/main.rs`
(lines 99-135): seven protocols, each with a distinct program address, name
and decoder (tags 1..7 stand for the seven external vixen decoders). -/
def mainMultiParser : MultiParserM :=
  addParserEntry (addParserEntry (addParserEntry (addParserEntry (addParserEntry (addParserEntry (addParserEntry
    ⟨[]⟩
    "6EF8rrecthR5Dkzon8Nwu78hRvfCKubJ14M5uBEwF6P" "Pumpfun" 1)
    "pAMMBay6oceH9fJKBRHGP5D4bD4sWpmSwMn52FMfXEA" "Pumpfun Swaps" 2)
    "JUP6LkbZbjS1jKKwapdHNy74zcZ3tLUZoi5QNyVTaV4" "Jupiter Swaps" 3)
    "675kPX9MHTjS2zt1qfr1NYHuzeLXfQM9H24wFSUt1Mp8" "Raydium AMM V4" 4)
    "CAMMCzo5YL8w4VFF8KVHrK22GGUsp5VTaW7grrKgrWqK" "Raydium CLMM" 5)
    "CPMMoo8L3F4NbTegBCKVNunggL7H1ZpdTHKxQB5qKP1C" "Raydium CPMM" 6)
    "whirLbMiicVdio4qvUfM5KAg6Ct8VwpYzGff3uctyCc" "Orca Whirlpool" 7

/-- Embeds `build_parser_map` of `src/multi_parser.rs` (lines 90-130): the
static table from program address (keys modelled by their base-58 source
text; `bs58::decode` is injective on them) to parser name. -/
def build_parser_map : List (String × String) :=
  [("JUP6LkbZbjS1jKKwapdHNy74zcZ3tLUZoi5QNyVTaV4", "jupiter_v6"),
   ("JUP4Fb2cqiRUcaTHdrPC8h2gNsA2ETXiPDD33WcGuJB", "jupiter_v4"),
   ("pAMMBay6oceH9fJKBRHGP5D4bD4sWpmSwMn52FMfXEA", "pump_amm"),
   ("6EF8rrecthR5Dkzon8Nwu78hRvfCKubJ14M5uBEwF6P", "pump_fun"),
   ("CAMMCzo5YL8w4VFF8KVHrK22GGUsp5VTaW7grrKgrWqK", "raydium_amm_v3"),
   ("CPMMoo8L3F4NbTegBCKVNunggL7H1ZpdTHKxQB5qKP1C", "raydium_cp_swap"),
   ("whirLbMiicVdio4qvUfM5KAg6Ct8VwpYzGff3uctyCc", "whirlpool")]

/-- `HashMap::get` over the `build_parser_map` style table. -/
def pmGet (m : List (String × String)) (k : String) : Option String :=
  (m.find? (fun p => p.1 = k)).map Prod.snd

/-- A compiled instruction as it arrives from the streaming source: a
program-id index and account indices into the resolved account list, plus
the raw payload bytes. -/
structure Instr where
  program_id_index : Nat
  accounts : List Nat
  data : List Nat
deriving Repr, DecidableEq

/-- A versioned message: legacy messages carry only their own account keys;
v0 messages additionally resolve loaded writable/readonly addresses. -/
inductive VersionedMessageM where
  | legacy (account_keys : List String) (instructions : List Instr)
  | v0 (account_keys : List String) (instructions : List Instr)
deriving Repr, DecidableEq

/-- Embeds `build_full_account_list` (identical in `src/main.rs` lines 23-40
and `src/multi_parser.rs` lines 16-33). -/
def build_full_account_list (message : VersionedMessageM)
    (loaded_writable loaded_readonly : List String) : List String :=
  match message with
  | .legacy account_keys _ => account_keys
  | .v0 account_keys _ => account_keys ++ loaded_writable ++ loaded_readonly

/-- The instruction list of a message (the `match` over the message variants
in both transaction handlers). -/
def messageInstructions : VersionedMessageM → List Instr
  | .legacy _ instructions => instructions
  | .v0 _ instructions => instructions

/-- One incoming `TransactionData` at the interface to the streaming source.
`statusIsErr` models `format!` of the on-chain status starting with `Err`
(the status is `Ok(())` or `Err(..)`, so this is exactly on-chain failure);
`compute_units` and `log_messages` are optional in the source and defaulted
at use sites. -/
structure TxDataM where
  statusIsErr : Bool
  signature : String
  slot : Nat
  fee : Nat
  compute_units : Option Nat
  message : VersionedMessageM
  loadedWritable : List String
  loadedReadonly : List String
  log_messages : Option (List String)
deriving Repr, DecidableEq

/-- Solana genesis timestamp constant of `src/main.rs` line 199 and
`src/helpers.rs` line 12. -/
def GENESIS_TIMESTAMP : Nat := 1600646400

/-- Embeds the transaction handler closure of `src/main.rs` (lines 170-249):
build the full account list, then for each instruction skip it when the
program-id index is out of range, skip it when no parser is registered for
the program, drop the individual out-of-range account indices from the
resolved account list, and hand the instruction to
`MultiParser::parse_instruction`.  The handler performs NO check of the
transaction's on-chain status.  `slotOffset` models the floating-point
expression `(slot as f64 * 0.4) as u64` (an external-arithmetic detail none
of the claims depend on); the block time is `GENESIS_TIMESTAMP + slotOffset
slot`.  The handler always returns `Ok(())` (final `Bool` `true`). -/
def transaction_handler (slotOffset : Nat → Nat)
    (decode : Nat → IxUpdate → Except String String)
    (mp : MultiParserM) (tx : TxDataM) : StoreOps × MultiParserM × Bool :=
  let all_accounts := build_full_account_list tx.message tx.loadedWritable tx.loadedReadonly
  let instructions := messageInstructions tx.message
  let fee := tx.fee
  let compute_units := tx.compute_units.getD 0
  let log_messages := tx.log_messages.getD []
  let block_time := GENESIS_TIMESTAMP + slotOffset tx.slot
  let step := fun (acc : StoreOps × MultiParserM) (ix : Instr) =>
    if all_accounts.length ≤ ix.program_id_index then acc
    else
      let program_id := all_accounts.getD ix.program_id_index ""
      if !hasParserEntry acc.2 program_id then acc
      else
        let resolved_accounts := ix.accounts.filterMap (fun idx => all_accounts[idx]?)
        let instruction_update : IxUpdate :=
          ⟨program_id, ix.data, resolved_accounts⟩
        let r := parse_instruction decode acc.2 program_id instruction_update
          tx.signature tx.slot block_time fee compute_units log_messages
        (acc.1.append r.1, r.2)
  let r := instructions.foldl step (StoreOps.empty, mp)
  (r.1, r.2, true)

/-- The `Transaction` row as constructed by `src/helpers.rs` (lines 121-134)
for the `storage.rs` module: the `src/storage.rs` struct fields plus the
`date`/`hour` dimensions the helper fills in. -/
structure HTransaction where
  signature : String
  slot : Nat
  block_time : Nat
  program_id : String
  protocol_name : String
  instruction_type : String
  success : Nat
  fee : Nat
  compute_units : Nat
  accounts_count : Nat
  date : String
  hour : Nat
deriving Repr, DecidableEq

/-- The `FailedTransaction` row of `src/storage.rs` (lines 30-40), as
constructed by `src/helpers.rs` (lines 154-163). -/
structure HFailedTransaction where
  signature : String
  slot : Nat
  block_time : Nat
  program_id : String
  protocol_name : String
  raw_data : String
  error_message : String
  log_messages : String
deriving Repr, DecidableEq

/-- Per-transaction context shared read-only across the instructions of one
transaction in `src/helpers.rs` (signature, slot, derived block time, fee,
compute units, the pre-computed date/hour and the joined log messages). -/
structure HContext where
  signature : String
  slot : Nat
  block_time : Nat
  fee : Nat
  compute_units : Nat
  date : String
  hour : Nat
  log_messages_str : String
deriving Repr, DecidableEq

/-- Outcome of classifying one instruction in `src/helpers.rs`: skipped
because the program-id index is out of range (`continue`), no parser
registered for the program (the `if let` does not match), or a success /
decode-failure record together with the parser name whose counter is
incremented. -/
inductive IxOutcome where
  | skippedIndex : IxOutcome
  | noParserEntry : IxOutcome
  | success (rec : HTransaction) (metric : String) : IxOutcome
  | failed (rec : HFailedTransaction) (metric : String) : IxOutcome
deriving Repr, DecidableEq

/-- Embeds the instruction-classification loop body of
`src/helpers.rs::process_transaction` (lines 77-173): skip the instruction
when the program-id index is out of range of the resolved account list;
otherwise look the program up in the parser map; when a parser exists, drop
the individual out-of-range account indices from the resolved account list,
invoke the decoder (the opaque capability, passed in as `decode` over parser
names, returning the `Debug` renderings the source formats), and build
either the success `Transaction` (with `success = 1` and the
`extract_instruction_type` label) or the `FailedTransaction` record, with
the matching metrics counter increment. -/
def classify_instruction (decode : String → IxUpdate → Except String String)
    (parserMap : List (String × String)) (ctx : HContext)
    (all_accounts : List String) (ix : Instr) : IxOutcome :=
  if all_accounts.length ≤ ix.program_id_index then .skippedIndex
  else
    let program_id := all_accounts.getD ix.program_id_index ""
    match pmGet parserMap program_id with
    | none => .noParserEntry
    | some parser_name =>
      let resolved_accounts := ix.accounts.filterMap (fun idx => all_accounts[idx]?)
      let instruction_update : IxUpdate := ⟨program_id, ix.data, resolved_accounts⟩
      let raw_data := hexEncode ix.data
      match decode parser_name instruction_update with
      | .ok parsed =>
        .success
          { signature := ctx.signature
            slot := ctx.slot
            block_time := ctx.block_time
            program_id := program_id
            protocol_name := parser_name
            instruction_type := extract_instruction_type parsed
            success := 1
            fee := ctx.fee
            compute_units := ctx.compute_units
            accounts_count := ix.accounts.length
            date := ctx.date
            hour := ctx.hour }
          parser_name
      | .error e =>
        .failed
          { signature := ctx.signature
            slot := ctx.slot
            block_time := ctx.block_time
            program_id := program_id
            protocol_name := parser_name
            raw_data := raw_data
            error_message := e
            log_messages := ctx.log_messages_str }
          parser_name

/-- What one `process_transaction` call produced: the rows submitted to the
two storage insert methods and the per-parser success/failure counter
increments, in order. -/
structure HProcResult where
  txRecords : List HTransaction
  failedRecords : List HFailedTransaction
  successIncs : List String
  failureIncs : List String
deriving Repr, DecidableEq

/-- The empty result. -/
def HProcResult.empty : HProcResult := ⟨[], [], [], []⟩

/-- Embeds `process_transaction` of `src/helpers.rs` (lines 15-176): if the
on-chain status indicates failure the transaction is skipped entirely with
`Ok(())`; otherwise the per-transaction context is built (block time from
the slot via the floating-point offset, modelled by `slotOffset`; the date
from the external `chrono` conversion of the block time, modelled by
`chronoDate`; the hour from the block time) and every instruction is
classified in order.  The function always returns `Ok(())` (final `Bool`
`true`): storage errors are only logged. -/
def process_transaction (slotOffset : Nat → Nat) (chronoDate : Nat → String)
    (decode : String → IxUpdate → Except String String)
    (parserMap : List (String × String)) (tx : TxDataM) : HProcResult × Bool :=
  if tx.statusIsErr then (HProcResult.empty, true)
  else
    let all_accounts :=
      build_full_account_list tx.message tx.loadedWritable tx.loadedReadonly
    let instructions := messageInstructions tx.message
    let block_time := GENESIS_TIMESTAMP + slotOffset tx.slot
    let ctx : HContext :=
      { signature := tx.signature
        slot := tx.slot
        block_time := block_time
        fee := tx.fee
        compute_units := tx.compute_units.getD 0
        date := chronoDate block_time
        hour := block_time % 86400 / 3600
        log_messages_str := String.intercalate "\n" (tx.log_messages.getD []) }
    let step := fun (acc : HProcResult) (ix : Instr) =>
      match classify_instruction decode parserMap ctx all_accounts ix with
      | .skippedIndex => acc
      | .noParserEntry => acc
      | .success rec m =>
        { acc with
            txRecords := acc.txRecords ++ [rec],
            successIncs := acc.successIncs ++ [m] }
      | .failed rec m =>
        { acc with
            failedRecords := acc.failedRecords ++ [rec],
            failureIncs := acc.failureIncs ++ [m] }
    (instructions.foldl step HProcResult.empty, true)

/-- Sequential inserts into the `clickhouse.rs` writer: fold
`insert_transaction` over a list of rows, discarding the per-call `Result`
exactly as the caller in `src/parser.rs` does (it only logs insert errors). -/
def CH.insertFold (st : Nat → Bool) (batchSize : Nat) (s : CHState α)
    (l : List α) : CHState α :=
  l.foldl (fun s x => (CH.insert_transaction st batchSize s x).1) s

/-- Whether a classification outcome produced a record (a success row or a
decode-failure row, each with its counter increment) rather than skipping
the instruction. -/
def producesIxRecord : IxOutcome → Bool
  | .success _ _ => true
  | .failed _ _ => true
  | .skippedIndex => false
  | .noParserEntry => false

/-! ## Helper lemmas -/

/-- `ST.retryLoop` never touches the buffers, and whenever it reports
success the attempted batch has been persisted. -/
theorem ST.retryLoop_spec (st : Nat → Bool) (table : String) (batch : List α) :
    ∀ (n : Nat) (s : STState α),
      (ST.retryLoop st table batch s n).1.txBuffer = s.txBuffer ∧
      (ST.retryLoop st table batch s n).1.failedBuffer = s.failedBuffer ∧
      ((ST.retryLoop st table batch s n).2 = true →
        (table, batch) ∈ (ST.retryLoop st table batch s n).1.persisted) := by
  intro n
  induction n with
  | zero => intro s; simp [ST.retryLoop]
  | succ n ih =>
    intro s
    simp only [ST.retryLoop, stWrite]
    by_cases h : st s.writeCalls.length
    · simp [h]
    · simpa [h] using ih _

/-- Rows of a batch recorded in a persisted-batch trace are persisted rows. -/
theorem mem_rowsPersisted {l : List (String × List α)} {table : String}
    {batch : List α} {x : α} (hb : (table, batch) ∈ l) (hx : x ∈ batch) :
    x ∈ rowsPersisted l := by
  simp only [rowsPersisted, List.mem_flatMap]
  exact ⟨(table, batch), hb, hx⟩

/-- With a store whose writes all fail, `ST.retryLoop` makes exactly `n`
identical attempts, persists nothing, and reports failure. -/
theorem ST.retryLoop_allFail (st : Nat → Bool) (hst : ∀ k, st k = false)
    (table : String) (batch : List α) :
    ∀ (n : Nat) (s : STState α),
      ST.retryLoop st table batch s n =
        ({ s with writeCalls := s.writeCalls ++ List.replicate n (table, batch) }, false) := by
  intro n
  induction n with
  | zero => intro s; simp [ST.retryLoop]
  | succ n ih =>
    intro s
    simp [ST.retryLoop, stWrite, hst, ih, List.replicate_succ, List.append_assoc]

/-- `ST.insert_transaction` always returns `Ok(())`: write failures are
logged and swallowed, never surfaced to the inserting caller. -/
theorem ST.insert_transaction_ok (st : Nat → Bool) (batchSize : Nat)
    (arrivals : List α) (s : STState α) (tx : α) :
    (ST.insert_transaction st batchSize arrivals s tx).2 = true := by
  simp only [ST.insert_transaction]
  split
  · split <;> simp
  · rfl

/-! ## Claim C1 -/

/-- C1: for every block time `t ≥ 0` the calendar function must agree with
the proleptic Gregorian calendar, with `1970-01-01` (a Thursday) mapped to
day-of-week 4, in particular at `t = 0`.  The code violates this at exactly
the special-cased input `t = 0`: it returns day-of-week 0 there, while for
`t = 1` — one second later, the very same calendar day — it returns the
correct Thursday value 4, contradicting the code's own comment that maps
Thursday to 4. -/
theorem C1_epoch_weekday_evaluation :
    compute_time_dimensions 0 = ("1970-01-01", 0, 0) ∧
    compute_time_dimensions 1 = ("1970-01-01", 0, 4) := by
  decide

/-! ## Claim C2 -/

/-- C2 counterexample: a row accepted into the `storage.rs` transactions
buffer and then flushed by `flush_all` while the store is failing ends up
neither persisted nor in any buffer — `flush_all` drains the buffer, the
three write attempts fail, and the `?` drops the drained batch.  This
refutes the claim that every accepted record is persisted or still buffered
after the operation, for every flush, including when the store write fails. -/
theorem C2_flush_all_drops_rows_counterexample :
    ¬(0 ∈ rowsPersisted (ST.flush_all (fun _ => false)
          (⟨[0], [], [], [], 0⟩ : STState Nat)).1.persisted ∨
      0 ∈ (ST.flush_all (fun _ => false)
          (⟨[0], [], [], [], 0⟩ : STState Nat)).1.txBuffer) := by
  decide

/-- C2 (amended): the never-silently-dropped invariant does hold for the
`storage.rs` insert operations — after `insert_transaction` or
`insert_failed` the inserted record is either among the persisted rows or
still in that writer's buffer, whatever the store does — but not for the
`flush_all` paths or the `clickhouse.rs` insert paths, which drop the
drained batch when the store write fails. -/
theorem C2_insert_never_drops_amended (α : Type) (st : Nat → Bool)
    (batchSize : Nat) (arrivals : List α) (s : STState α) (tx : α) :
    (tx ∈ (ST.insert_transaction st batchSize arrivals s tx).1.txBuffer ∨
      tx ∈ rowsPersisted (ST.insert_transaction st batchSize arrivals s tx).1.persisted) ∧
    (tx ∈ (ST.insert_failed st batchSize arrivals s tx).1.failedBuffer ∨
      tx ∈ rowsPersisted (ST.insert_failed st batchSize arrivals s tx).1.persisted) := by
  constructor
  · simp only [ST.insert_transaction]
    split
    · simp only [ST.flush_transactions_batch]
      split
      · simp_all
      · have hspec := ST.retryLoop_spec st "transactions" (s.txBuffer ++ [tx]) 3
          { s with txBuffer := arrivals }
        split
        · next hok =>
          right
          exact mem_rowsPersisted (hspec.2.2 hok) (by simp)
        · simp
    · simp
  · simp only [ST.insert_failed]
    split
    · simp only [ST.flush_failed_batch]
      split
      · simp_all
      · have hspec := ST.retryLoop_spec st "failed_transactions" (s.failedBuffer ++ [tx]) 3
          { s with failedBuffer := arrivals }
        split
        · next hok =>
          right
          exact mem_rowsPersisted (hspec.2.2 hok) (by simp)
        · simp
    · simp

/-! ## Claim C3 -/

/-- C3 counterexample: the `storage.rs` writer at its configured batch size
50000, a full buffer, one more insert, one concurrent arrival during the
retry window, and a store whose writes all fail.  The claim predicts that
the original batch is restored to the FRONT of the live buffer (arrivals
after it) and that the triggering insert returns an error; the code instead
appends the batch AFTER the arrivals with `buffer.extend(batch)` and returns
`Ok(())`, only logging the failure — so the conjunction the claim asserts is
false. -/
theorem C3_front_restore_and_error_counterexample :
    ¬((ST.insert_transaction (fun _ => false) 50000 [1]
          (⟨List.replicate 49999 0, [], [], [], 0⟩ : STState Nat) 0).1.txBuffer =
        (List.replicate 49999 0 ++ [0]) ++ [1] ∧
      (ST.insert_transaction (fun _ => false) 50000 [1]
          (⟨List.replicate 49999 0, [], [], [], 0⟩ : STState Nat) 0).2 = false) := by
  intro h
  obtain ⟨_, h2⟩ := h
  have hok := ST.insert_transaction_ok (fun _ => false) 50000 [1]
    (⟨List.replicate 49999 0, [], [], [], 0⟩ : STState Nat) 0
  rw [hok] at h2
  exact Bool.noConfusion h2

/-- C3 (amended): with a store whose writes always fail, an insert that
triggers a flush makes exactly `max_retries = 3` write attempts with the
identical original batch, persists nothing, then re-appends the original
batch — exact by count and content — to the BACK of the live buffer, after
any records that arrived during the retry window, and returns `Ok(())` to
the caller (the exhaustion error is surfaced only on the explicit
`flush_all` path, which does not restore the batch). -/
theorem C3_abandonment_amended (α : Type) (st : Nat → Bool) (batchSize : Nat)
    (arrivals : List α) (s : STState α) (tx : α)
    (hst : ∀ k, st k = false)
    (htrig : batchSize ≤ (s.txBuffer ++ [tx]).length) :
    ST.insert_transaction st batchSize arrivals s tx =
      ({ s with
          txBuffer := arrivals ++ (s.txBuffer ++ [tx]),
          writeCalls := s.writeCalls ++
            List.replicate 3 ("transactions", s.txBuffer ++ [tx]) }, true) := by
  simp only [ST.insert_transaction, htrig, if_true, ST.flush_transactions_batch]
  have hne : (s.txBuffer ++ [tx]).isEmpty = false := by simp
  rw [hne]
  rw [ST.retryLoop_allFail st hst "transactions" (s.txBuffer ++ [tx]) 3
    { s with txBuffer := arrivals }]
  simp

/-- C3 amended witness: the abandonment behaviour evaluated at a concrete
writer (threshold 1, empty buffer, one arrival) with an always-failing
store. -/
theorem C3_abandonment_amended_witness :
    ST.insert_transaction (fun _ => false) 1 [5] (STState.empty Nat) 7 =
      ({ STState.empty Nat with
          txBuffer := [5] ++ ([] ++ [7]),
          writeCalls := [] ++ List.replicate 3 ("transactions", [] ++ [7]) }, true) :=
  C3_abandonment_amended Nat (fun _ => false) 1 [5] (STState.empty Nat) 7
    (fun _ => rfl) (by decide)

/-! ## Claim C4 -/

/-- C4 counterexample: `flush_all` of `src/storage.rs` on a storage state
with all buffers empty still sends one query over the connection — the
unconditional `SYSTEM FLUSH ASYNC INSERT QUEUE` — so the claim that zero
calls (no insert and no query) are issued is false. -/
theorem C4_empty_flush_sends_query_counterexample :
    ¬((ST.flush_all (fun _ => true) (STState.empty Nat)).1.queries = 0) := by
  decide

/-- C4 (amended): on a state with all buffers empty, `flush_all` returns
success without draining anything and without any insert call; the
`clickhouse.rs` implementation issues zero store calls altogether, while the
`storage.rs` implementation additionally issues exactly one query (`SYSTEM
FLUSH ASYNC INSERT QUEUE`, result ignored). -/
theorem C4_empty_flush_amended (α : Type) (st : Nat → Bool)
    (c : CHState α) (s : STState α)
    (hc1 : c.txBuffer = []) (hc2 : c.payloadBuffer = [])
    (hc3 : c.eventBuffer = []) (hc4 : c.failedBuffer = [])
    (hs1 : s.txBuffer = []) (hs2 : s.failedBuffer = []) :
    CH.flush_all st c = (c, true) ∧
    ST.flush_all st s = ({ s with queries := s.queries + 1 }, true) := by
  obtain ⟨ctb, cpb, ceb, cfb, cwc, cps, cq⟩ := c
  obtain ⟨stb, sfb, swc, sps, sq⟩ := s
  simp only at hc1 hc2 hc3 hc4 hs1 hs2
  subst hc1 hc2 hc3 hc4 hs1 hs2
  constructor
  · simp [CH.flush_all, chFlushBuf]
  · simp [ST.flush_all]

/-- C4 amended witness: both flush implementations evaluated at their empty
states. -/
theorem C4_empty_flush_amended_witness :
    CH.flush_all (fun _ => true) (CHState.empty Nat) = (CHState.empty Nat, true) ∧
    ST.flush_all (fun _ => true) (STState.empty Nat) =
      ({ STState.empty Nat with queries := 1 }, true) :=
  C4_empty_flush_amended Nat (fun _ => true) (CHState.empty Nat) (STState.empty Nat)
    rfl rfl rfl rfl rfl rfl

/-- A run of inserts that never fills the buffer triggers no flush: the rows
just accumulate in arrival order. -/
theorem CH.insertFold_no_flush (st : Nat → Bool) (batchSize : Nat) :
    ∀ (l : List α) (s : CHState α),
      s.txBuffer.length + l.length < batchSize →
      CH.insertFold st batchSize s l = { s with txBuffer := s.txBuffer ++ l } := by
  intro l
  induction l with
  | nil => intro s h; simp [CH.insertFold]
  | cons x xs ih =>
    intro s h
    simp only [List.length_cons] at h
    have hlt : ¬ batchSize ≤ (s.txBuffer ++ [x]).length := by
      simp only [List.length_append, List.length_cons, List.length_nil]
      omega
    have hstep : (CH.insert_transaction st batchSize s x).1 =
        { s with txBuffer := s.txBuffer ++ [x] } := by
      simp only [CH.insert_transaction, if_neg hlt]
    have hrest := ih { s with txBuffer := s.txBuffer ++ [x] }
      (by simp only [List.length_append, List.length_cons, List.length_nil]; omega)
    simp only [CH.insertFold, List.foldl_cons, hstep] at hrest ⊢
    rw [hrest]
    simp

/-- The exact-threshold scenario for the `clickhouse.rs` writer: from an
empty writer, inserting `batchSize - 1` rows, then one more, then another
`batchSize - 1` rows (with a store that accepts writes) performs exactly one
automatic flush, whose batch is exactly the first `batchSize` rows, and
leaves exactly the trailing rows buffered. -/
theorem CH.insertFold_scenario (st : Nat → Bool) (hst : ∀ k, st k = true)
    (batchSize : Nat) (l1 l2 : List α) (m : α)
    (h1 : l1.length + 1 = batchSize) (h2 : l2.length + 1 = batchSize) :
    CH.insertFold st batchSize (CHState.empty α) (l1 ++ m :: l2) =
      { CHState.empty α with
          txBuffer := l2,
          writeCalls := [("transactions", l1 ++ [m])],
          persisted := [("transactions", l1 ++ [m])] } := by
  have hfold1 : CH.insertFold st batchSize (CHState.empty α) l1 =
      { CHState.empty α with txBuffer := l1 } := by
    apply CH.insertFold_no_flush
    simp only [CHState.empty, List.length_nil]
    omega
  have hsplit : CH.insertFold st batchSize (CHState.empty α) (l1 ++ m :: l2) =
      CH.insertFold st batchSize
        (CH.insert_transaction st batchSize { CHState.empty α with txBuffer := l1 } m).1 l2 := by
    simp only [CH.insertFold, List.foldl_append, List.foldl_cons]
    rw [show (List.foldl (fun s x => (CH.insert_transaction st batchSize s x).1)
      (CHState.empty α) l1) = { CHState.empty α with txBuffer := l1 } from hfold1]
  rw [hsplit]
  have hfull : batchSize ≤ (({ CHState.empty α with txBuffer := l1 }).txBuffer ++ [m]).length := by
    simp only [CHState.empty, List.length_append, List.length_cons, List.length_nil]
    omega
  simp only [CH.insert_transaction, if_pos hfull, chWrite, CHState.empty]
  simp only [List.length_nil, hst, if_pos, List.nil_append]
  have hfinal := CH.insertFold_no_flush st batchSize l2
    ({ txBuffer := [], payloadBuffer := [], eventBuffer := [], failedBuffer := [],
       writeCalls := [("transactions", l1 ++ [m])],
       persisted := [("transactions", l1 ++ [m])], queries := 0 } : CHState α)
    (by simp only [List.length_nil]; omega)
  simpa using hfinal

/-! ## Claim C6 -/

/-- C6: inserting `2 * 1000 - 1 = 1999` records sequentially into the
`clickhouse.rs` writer (threshold `batch_size = 1000`, store accepting
writes) triggers exactly one automatic flush, that flush is invoked with
exactly the first 1000 rows, and exactly 999 rows remain buffered
afterwards. -/
theorem C6_threshold_1999_scenario :
    CH.insertFold (fun _ => true) 1000 (CHState.empty Nat) (List.range 1999) =
      { CHState.empty Nat with
          txBuffer := (List.range 1999).drop 1000,
          writeCalls := [("transactions", List.range 1000)],
          persisted := [("transactions", List.range 1000)] } ∧
    (List.range 1000).length = 1000 ∧
    ((List.range 1999).drop 1000).length = 999 := by
  have hdecomp : List.range 1999 =
      List.range 999 ++ 999 :: (List.range 1999).drop 1000 := by
    conv_lhs => rw [← List.take_append_drop 1000 (List.range 1999)]
    rw [List.take_range]
    norm_num
    rw [List.range_succ]
    simp
  constructor
  · conv_lhs => rw [hdecomp]
    rw [CH.insertFold_scenario (fun _ => true) (fun _ => rfl) 1000
      (List.range 999) ((List.range 1999).drop 1000) 999
      (by simp) (by simp)]
    rw [← List.range_succ]
  · constructor
    · simp
    · simp

/-! ## Claim C5 -/

/-- C5 counterexample: an instruction whose account-index list references the
out-of-range index 5 (the resolved account list has length 1) is NOT skipped
by the classifier of `src/helpers.rs`: the out-of-range account is silently
dropped from the resolved list and the instruction is still decoded,
yielding a success record and a counter increment, contrary to the claim
that any out-of-range account index causes the whole instruction to be
skipped with no record and no counter. -/
theorem C5_account_index_counterexample :
    classify_instruction (fun _ _ => Except.ok "Foo") [("P", "pump_fun")]
        ⟨"sig", 0, 0, 0, 0, "1970-01-01", 0, ""⟩ ["P"] ⟨0, [5], []⟩ ≠
      IxOutcome.skippedIndex ∧
    producesIxRecord (classify_instruction (fun _ _ => Except.ok "Foo")
        [("P", "pump_fun")] ⟨"sig", 0, 0, 0, 0, "1970-01-01", 0, ""⟩
        ["P"] ⟨0, [5], []⟩) = true := by
  decide

/-- C5 (amended): an out-of-range PROGRAM-ID index does skip the instruction
entirely (no record, no counter); an out-of-range account index, however,
only removes that account from the resolved list — whenever the program-id
index is in range and a parser is registered for the program, the
instruction is still classified and a record (success or failure) with its
counter increment is produced, whatever account indices it references. -/
theorem C5_index_policy_amended :
    (∀ (decode : String → IxUpdate → Except String String)
        (parserMap : List (String × String)) (ctx : HContext)
        (all_accounts : List String) (ix : Instr),
      all_accounts.length ≤ ix.program_id_index →
        classify_instruction decode parserMap ctx all_accounts ix =
          IxOutcome.skippedIndex) ∧
    (∀ (decode : String → IxUpdate → Except String String)
        (parserMap : List (String × String)) (ctx : HContext)
        (all_accounts : List String) (ix : Instr) (name : String),
      ix.program_id_index < all_accounts.length →
      pmGet parserMap (all_accounts.getD ix.program_id_index "") = some name →
        producesIxRecord
          (classify_instruction decode parserMap ctx all_accounts ix) = true) := by
  constructor
  · intro decode parserMap ctx all_accounts ix h
    simp [classify_instruction, h]
  · intro decode parserMap ctx all_accounts ix name hlt hname
    have hnle : ¬ all_accounts.length ≤ ix.program_id_index := by omega
    simp only [classify_instruction, if_neg hnle, hname]
    cases decode name ⟨all_accounts.getD ix.program_id_index "", ix.data,
        ix.accounts.filterMap (fun idx => all_accounts[idx]?)⟩ with
    | ok parsed => simp [producesIxRecord]
    | error e => simp [producesIxRecord]

/-- C5 amended witness: the two index policies at concrete inputs — an
instruction whose program index 3 is out of range of a single-account list
is skipped; an instruction with a registered program and an (out-of-range)
account index 9 still produces a record. -/
theorem C5_index_policy_amended_witness :
    classify_instruction (fun _ _ => Except.error "e") [("Q", "whirlpool")]
        ⟨"s", 1, 2, 3, 4, "d", 5, "L"⟩ ["Q"] ⟨3, [], []⟩ =
      IxOutcome.skippedIndex ∧
    producesIxRecord (classify_instruction (fun _ _ => Except.error "e")
        [("Q", "whirlpool")] ⟨"s", 1, 2, 3, 4, "d", 5, "L"⟩
        ["Q"] ⟨0, [9], []⟩) = true :=
  ⟨C5_index_policy_amended.1 (fun _ _ => Except.error "e") [("Q", "whirlpool")]
      ⟨"s", 1, 2, 3, 4, "d", 5, "L"⟩ ["Q"] ⟨3, [], []⟩ (by decide),
    C5_index_policy_amended.2 (fun _ _ => Except.error "e") [("Q", "whirlpool")]
      ⟨"s", 1, 2, 3, 4, "d", 5, "L"⟩ ["Q"] ⟨0, [9], []⟩ "whirlpool"
      (by decide) (by decide)⟩

/-! ## Claim C8 -/

/-- C8 counterexample: registering a second decoder for an already-registered
program identifier neither fails nor preserves the original entry — after
the duplicate registration call the dispatch table maps the identifier to
the SECOND entry, not the originally registered one, so the claim that the
table still maps it to the original entry is false. -/
theorem C8_duplicate_registration_counterexample :
    ¬(hmGet (addParserEntry (addParserEntry ⟨[]⟩ "P" "first" 1) "P" "second" 2).parsers "P" =
        some ⟨"first", 1, 0⟩) := by
  decide

/-- C8 (amended): duplicate registration is NOT surfaced as an error —
`addParserEntry` is infallible - and last-registration-wins DOES occur: after
registering twice under the same program identifier, lookup returns the
entry of the second registration (with a fresh zero counter), for every
prior table state and every pair of registrations. -/
theorem C8_last_registration_wins_amended (mp : MultiParserM) (pid n1 n2 : String)
    (t1 t2 : Nat) :
    hmGet (addParserEntry (addParserEntry mp pid n1 t1) pid n2 t2).parsers pid =
      some ⟨n2, t2, 0⟩ := by
  simp [addParserEntry, hmInsert, hmGet, List.find?]

/-! ## Claim C9 -/

/-- C9 counterexample: the transaction handler of `src/main.rs` performs no
on-chain-status check at all — fed a transaction whose status indicates
failure (`statusIsErr = true`) with one decodable instruction for the
registered Pumpfun program, it still records one transaction row (and bumps
the entry counter), so the claim that rows are recorded only for
on-chain-successful transactions is false for this pipeline. -/
theorem C9_failed_status_recorded_counterexample :
    (⟨true, "sig", 0, 0, none,
        VersionedMessageM.legacy ["6EF8rrecthR5Dkzon8Nwu78hRvfCKubJ14M5uBEwF6P"]
          [⟨0, [], []⟩], [], [], none⟩ : TxDataM).statusIsErr = true ∧
    (transaction_handler (fun _ => 0) (fun _ _ => Except.ok "Foo") mainMultiParser
        ⟨true, "sig", 0, 0, none,
          VersionedMessageM.legacy ["6EF8rrecthR5Dkzon8Nwu78hRvfCKubJ14M5uBEwF6P"]
            [⟨0, [], []⟩], [], [], none⟩).1.txs.length = 1 := by
  constructor
  · rfl
  · decide

/-- C9 (amended): the on-chain-failure skip exists only in the
`helpers.rs` pipeline: `process_transaction` returns `Ok(())` immediately
for a transaction whose status indicates failure, recording no rows in
either table and incrementing no counters; the `main.rs` transaction
handler applies no such check. -/
theorem C9_failed_status_skip_amended (slotOffset : Nat → Nat)
    (chronoDate : Nat → String) (decode : String → IxUpdate → Except String String)
    (parserMap : List (String × String)) (tx : TxDataM)
    (h : tx.statusIsErr = true) :
    process_transaction slotOffset chronoDate decode parserMap tx =
      (HProcResult.empty, true) := by
  simp [process_transaction, h]

/-- C9 amended witness: the skip evaluated at a concrete on-chain-failed
transaction with one instruction for a registered program. -/
theorem C9_failed_status_skip_amended_witness :
    process_transaction (fun _ => 0) (fun _ => "2020-09-21")
        (fun _ _ => Except.ok "Foo") build_parser_map
        ⟨true, "w", 9, 1, some 2,
          VersionedMessageM.legacy ["6EF8rrecthR5Dkzon8Nwu78hRvfCKubJ14M5uBEwF6P"]
            [⟨0, [0], [1, 2]⟩], [], [], some ["log"]⟩ =
      (HProcResult.empty, true) :=
  C9_failed_status_skip_amended (fun _ => 0) (fun _ => "2020-09-21")
    (fun _ _ => Except.ok "Foo") build_parser_map
    ⟨true, "w", 9, 1, some 2,
      VersionedMessageM.legacy ["6EF8rrecthR5Dkzon8Nwu78hRvfCKubJ14M5uBEwF6P"]
        [⟨0, [0], [1, 2]⟩], [], [], some ["log"]⟩ rfl

/-! ## Claim C10 -/

/-- C10: `extract_protocol_event` returns `Some` for every successfully
decoded instruction — its `Option` is vacuous — and when none of the keyword
markers occurs in the decoder output it emits the `unknown` event type with
the placeholder amount and actor fields. -/
theorem C10_protocol_event_always_some (protocol parsed_data signature : String)
    (slot block_time : Nat) :
    (extract_protocol_event protocol parsed_data signature slot block_time).isSome = true ∧
    (strContains parsed_data.data "Buy".data = false →
     strContains parsed_data.data "Sell".data = false →
     strContains parsed_data.data "Swap".data = false →
     strContains parsed_data.data "AddLiquidity".data = false →
     strContains parsed_data.data "RemoveLiquidity".data = false →
      extract_protocol_event protocol parsed_data signature slot block_time =
        some ⟨signature, slot, block_time, protocol.toLower, "unknown",
          parsed_data, 0, 0, 0, "unknown", "unknown"⟩) := by
  constructor
  · simp [extract_protocol_event]
  · intro h1 h2 h3 h4 h5
    simp [extract_protocol_event, h1, h2, h3, h4, h5]

/-- C10 witness: the always-`Some` behaviour and the `unknown` fallback at a
concrete keyword-free decoder output. -/
theorem C10_protocol_event_always_some_witness :
    (extract_protocol_event "Pumpfun" "Foo" "sig" 3 7).isSome = true ∧
    extract_protocol_event "Pumpfun" "Foo" "sig" 3 7 =
      some ⟨"sig", 3, 7, "Pumpfun".toLower, "unknown", "Foo", 0, 0, 0,
        "unknown", "unknown"⟩ :=
  ⟨(C10_protocol_event_always_some "Pumpfun" "Foo" "sig" 3 7).1,
    (C10_protocol_event_always_some "Pumpfun" "Foo" "sig" 3 7).2
      (by decide) (by decide) (by decide) (by decide) (by decide)⟩

/-! ## Claim C7 -/

/-- Trimming keeps a list non-empty when its head is not Unicode
whitespace. -/
theorem trimChars_ne_nil (c : Char) (t : List Char)
    (hws : rustIsWhitespace c = false) : trimChars (c :: t) ≠ [] := by
  simp only [trimChars, List.dropWhile_cons, hws, Bool.false_eq_true, if_false]
  simp only [ne_eq, List.reverse_eq_nil_iff, List.dropWhile_eq_nil_iff]
  intro hall
  have hc := hall c (by simp)
  rw [hws] at hc
  exact Bool.noConfusion hc

/-- The `parser.rs` instruction-type label is non-empty whenever the decoder
output's `Debug` string starts with anything but an opening parenthesis. -/
theorem instruction_type_label_ne_empty (c : Char) (cs : List Char)
    (h : c ≠ lparChar) : instruction_type_label (String.mk (c :: cs)) ≠ "" := by
  intro heq
  have hd := congrArg String.data heq
  simp [instruction_type_label, List.takeWhile_cons, h] at hd

/-- The `multi_parser.rs` instruction-type label is non-empty whenever the
decoder output's `Debug` string starts with a character that is neither
Unicode whitespace (the White_Space property Rust's `str::trim` strips by)
nor an opening brace. -/
theorem extract_instruction_type_ne_empty (c : Char) (cs : List Char)
    (hws : rustIsWhitespace c = false) (hbr : c ≠ lbraceChar) :
    extract_instruction_type (String.mk (c :: cs)) ≠ "" := by
  intro heq
  have hd := congrArg String.data heq
  simp only [extract_instruction_type] at hd
  rw [List.takeWhile_cons, if_pos (by simp [hbr])] at hd
  exact trimChars_ne_nil c _ hws hd

/-- C7 counterexample: for the decoder output whose `Debug` rendering is the
empty string, `parse_and_store` builds a SUCCESS record whose
`instruction_type` field is the empty string, so the claim that
`instruction_type` is non-empty for every possible decoder output string is
false. -/
theorem C7_empty_label_counterexample :
    ((parse_and_store (Except.ok "") "Pumpfun" "sig" 0 0 0 0
        ⟨"P", [], []⟩ []).txs.map (fun t => t.instruction_type)) = [""] ∧
    ((parse_and_store (Except.ok "") "Pumpfun" "sig" 0 0 0 0
        ⟨"P", [], []⟩ []).txs.map (fun t => t.success)) = [1] := by
  decide

/-- C7 (amended): the success-record labels are non-empty under the natural
conditions on the decoder output's `Debug` string — a head other than an
opening parenthesis for the `parser.rs` label, a non-whitespace non-brace
head for the `multi_parser.rs` label (every real `Debug` rendering of a
decoded variant starts with the variant identifier and satisfies both) —
while the empty or delimiter-led strings are the exceptions; decode-failure
records always carry the fixed sentinel `ParseFailed` type together with a
`FailedTransaction` row; the success record's `protocol_name` is exactly the
registered parser name, and every name registered by this program (both the
`main.rs` chain and `build_parser_map`) is non-empty. -/
theorem C7_labels_amended :
    (∀ (c : Char) (cs : List Char), c ≠ lparChar →
      instruction_type_label (String.mk (c :: cs)) ≠ "") ∧
    (∀ (c : Char) (cs : List Char), rustIsWhitespace c = false → c ≠ lbraceChar →
      extract_instruction_type (String.mk (c :: cs)) ≠ "") ∧
    (∀ (e pn sig : String) (sl bt fee cu : Nat) (iu : IxUpdate) (lm : List String),
      ((parse_and_store (Except.error e) pn sig sl bt fee cu iu lm).txs.map
        (fun t => t.instruction_type)) = ["ParseFailed"] ∧
      (parse_and_store (Except.error e) pn sig sl bt fee cu iu lm).faileds.length = 1) ∧
    (∀ (parsed pn sig : String) (sl bt fee cu : Nat) (iu : IxUpdate) (lm : List String),
      ((parse_and_store (Except.ok parsed) pn sig sl bt fee cu iu lm).txs.map
        (fun t => t.protocol_name)) = [pn] ∧
      ((parse_and_store (Except.ok parsed) pn sig sl bt fee cu iu lm).txs.map
        (fun t => t.instruction_type)) = [instruction_type_label parsed]) ∧
    (∀ kv ∈ build_parser_map, kv.2 ≠ "") ∧
    (∀ kv ∈ mainMultiParser.parsers, kv.2.name ≠ "") := by
  refine ⟨instruction_type_label_ne_empty, extract_instruction_type_ne_empty,
    ?_, ?_, ?_, ?_⟩
  · intro e pn sig sl bt fee cu iu lm
    constructor <;> simp [parse_and_store]
  · intro parsed pn sig sl bt fee cu iu lm
    constructor <;> simp [parse_and_store]
  · decide
  · decide

/-- C7 amended witness: the conditional label guarantees evaluated at
concrete heads, and the sentinel/protocol-name facts at a concrete decode
failure and success. -/
theorem C7_labels_amended_witness :
    instruction_type_label (String.mk ('F' :: "oo".data)) ≠ "" ∧
    extract_instruction_type (String.mk ('B' :: "ar".data)) ≠ "" ∧
    (((parse_and_store (Except.error "bad discriminator") "pump_fun" "s" 1 2 3 4
        ⟨"P", [1], ["a"]⟩ ["l"]).txs.map (fun t => t.instruction_type)) =
      ["ParseFailed"] ∧
      (parse_and_store (Except.error "bad discriminator") "pump_fun" "s" 1 2 3 4
        ⟨"P", [1], ["a"]⟩ ["l"]).faileds.length = 1) ∧
    (((parse_and_store (Except.ok "Buy") "pump_fun" "s" 1 2 3 4
        ⟨"P", [1], ["a"]⟩ ["l"]).txs.map (fun t => t.protocol_name)) =
      ["pump_fun"] ∧
      ((parse_and_store (Except.ok "Buy") "pump_fun" "s" 1 2 3 4
        ⟨"P", [1], ["a"]⟩ ["l"]).txs.map (fun t => t.instruction_type)) =
      [instruction_type_label "Buy"]) :=
  ⟨C7_labels_amended.1 'F' "oo".data (by decide),
    C7_labels_amended.2.1 'B' "ar".data (by decide) (by decide),
    C7_labels_amended.2.2.1 "bad discriminator" "pump_fun" "s" 1 2 3 4
      ⟨"P", [1], ["a"]⟩ ["l"],
    C7_labels_amended.2.2.2.1 "Buy" "pump_fun" "s" 1 2 3 4
      ⟨"P", [1], ["a"]⟩ ["l"]⟩
